import Mathlib

/-!
Shallow embedding of the rusty-short link service core
(src/domain/models.rs, src/repository/link_repository.rs,
src/cache/link_cache.rs, src/services/link_service.rs,
src/services/analytics_service.rs, src/api/handlers.rs).

Conventions of the embedding:
* chrono timestamps are modelled as integer seconds, the type Time;
  every call of Utc::now() becomes an explicit now parameter.
* SQL rows are Lean lists; each repository query is a pure function over
  a Store value mirroring its SQL statement (JOIN as a nested filter,
  GROUP BY as tally over distinct values, ORDER BY count DESC as an
  insertion sort on a measure, LIMIT as List.take).
* External library collaborators (url::Url::parse, the woothee
  user-agent parser, the sha2 hash, the nanoid random draw) are passed
  in as function parameters, since their internals are outside this
  repository.
* f64 percentage arithmetic is modelled over the rationals; the source
  guards every division by the test total_clicks > 0, so the divisor is
  never zero in any evaluated branch.
-/

namespace RustyShort

abbrev Time := Int

/-- domain/models.rs: struct Link (uuid ids modelled as Nat). -/
structure Link where
  id : Nat
  key : String
  original_url : String
  created_at : Time
  expires_at : Option Time
  click_count : Int
  owner_id : Option Nat
deriving DecidableEq

/-- domain/models.rs: Link::is_expired — expires_at < Utc::now(), none means never. -/
def Link.is_expired (l : Link) (now : Time) : Bool :=
  match l.expires_at with
  | some e => decide (e < now)
  | none => false

/-- A persisted link_analytics row (columns of the INSERT/SELECT in
link_repository.rs). -/
structure ClickEvent where
  link_id : Nat
  clicked_at : Time
  referrer : Option String
  user_agent : Option String
  ip_hash : Option String
  country_code : Option String
  browser : Option String
  os : Option String
  device_type : Option String
  city : Option String
deriving DecidableEq

/-- The durable store: the links table and the link_analytics table. -/
structure Store where
  links : List Link
  events : List ClickEvent
deriving DecidableEq

/-- link_repository.rs: find_by_key — SELECT ... FROM links WHERE key = $1. -/
def Store.find_by_key (st : Store) (key : String) : Option Link :=
  st.links.find? (fun l => l.key == key)

/-- link_repository.rs: exists — SELECT EXISTS(SELECT 1 FROM links WHERE key = $1). -/
def Store.existsKey (st : Store) (key : String) : Bool :=
  st.links.any (fun l => l.key == key)

/-- link_repository.rs: increment_click_count — UPDATE links SET
click_count = click_count + 1 WHERE key = $1. -/
def Store.increment_click_count (st : Store) (key : String) : Store :=
  { st with links := st.links.map (fun l =>
      if l.key == key then { l with click_count := l.click_count + 1 } else l) }

/-- link_repository.rs: the rows of link_analytics joined to the link with
the given key (JOIN links l ON la.link_id = l.id WHERE l.key = $1); one
result row per matching (link, event) pair, as in SQL. -/
def joinEvents (st : Store) (key : String) : List ClickEvent :=
  (st.links.filter (fun l => l.key == key)).flatMap
    (fun l => st.events.filter (fun e => e.link_id == l.id))

/-- Number of occurrences of a value in a list (SQL COUNT(*) per group). -/
def occs {α : Type} [DecidableEq α] (xs : List α) (a : α) : Nat :=
  (xs.filter (fun y => y = a)).length

/-- First-occurrence deduplication (SQL DISTINCT / the group keys of
GROUP BY), with an accumulator of already-seen values. -/
def dedupAux {α : Type} [DecidableEq α] : List α → List α → List α
  | [], _ => []
  | x :: xs, seen =>
    if x ∈ seen then dedupAux xs seen else x :: dedupAux xs (x :: seen)

/-- SQL DISTINCT over a list. -/
def dedup {α : Type} [DecidableEq α] (l : List α) : List α := dedupAux l []

/-- GROUP BY + COUNT(*): one (value, count) pair per distinct value. -/
def tally {α : Type} [DecidableEq α] (xs : List α) : List (α × Nat) :=
  (dedup xs).map (fun a => (a, occs xs a))

/-- Insertion step for ORDER BY measure DESC. -/
def insertByDesc {α β : Type} [LinearOrder β] (m : α → β) (a : α) :
    List α → List α
  | [] => [a]
  | b :: bs => if m a ≤ m b then b :: insertByDesc m a bs else a :: b :: bs

/-- ORDER BY measure DESC (insertion sort, descending on the measure). -/
def sortByDesc {α β : Type} [LinearOrder β] (m : α → β) : List α → List α
  | [] => []
  | a :: rest => insertByDesc m a (sortByDesc m rest)

/-- link_repository.rs: get_total_clicks — COUNT(*) over the joined rows. -/
def Store.get_total_clicks (st : Store) (key : String) : Nat :=
  (joinEvents st key).length

/-- link_repository.rs: get_unique_visitors — COUNT(DISTINCT ip_hash)
with ip_hash IS NOT NULL. -/
def Store.get_unique_visitors (st : Store) (key : String) : Nat :=
  (dedup ((joinEvents st key).filterMap (fun e => e.ip_hash))).length

/-- The raw referrer strings the referrer aggregate ranges over:
referrer IS NOT NULL AND referrer != '' (note: the SQL groups by the raw
string, it never extracts a domain). -/
def rawReferrers (st : Store) (key : String) : List String :=
  (joinEvents st key).filterMap (fun e =>
    e.referrer.bind (fun r => if r = "" then none else some r))

/-- link_repository.rs: get_top_referrers — GROUP BY la.referrer
ORDER BY count DESC LIMIT $2. -/
def Store.get_top_referrers (st : Store) (key : String) (limit : Nat) :
    List (String × Nat) :=
  (sortByDesc (fun p => p.2) (tally (rawReferrers st key))).take limit

/-- link_repository.rs: get_device_breakdown — GROUP BY the COALESCE of
device_type with the literal string other, ORDER BY count DESC. -/
def Store.get_device_breakdown (st : Store) (key : String) :
    List (String × Nat) :=
  sortByDesc (fun p => p.2)
    (tally ((joinEvents st key).map (fun e => e.device_type.getD "other")))

/-- link_repository.rs: get_browser_stats — browser IS NOT NULL, GROUP BY
browser ORDER BY count DESC LIMIT $2. -/
def Store.get_browser_stats (st : Store) (key : String) (limit : Nat) :
    List (String × Nat) :=
  (sortByDesc (fun p => p.2)
    (tally ((joinEvents st key).filterMap (fun e => e.browser)))).take limit

/-- link_repository.rs: get_country_stats — country_code IS NOT NULL,
GROUP BY country_code ORDER BY count DESC LIMIT $2. -/
def Store.get_country_stats (st : Store) (key : String) (limit : Nat) :
    List (String × Nat) :=
  (sortByDesc (fun p => p.2)
    (tally ((joinEvents st key).filterMap (fun e => e.country_code)))).take limit

/-- DATE(clicked_at): calendar days modelled as integer day numbers. -/
def dayOf (t : Time) : Int := t / 86400

/-- link_repository.rs: get_time_series — rows with clicked_at within the
trailing day window, grouped by day, counting clicks and distinct ip
hashes (SQL COUNT(DISTINCT x) ignores NULLs), ordered by date DESC. -/
def Store.get_time_series (st : Store) (key : String) (days : Int)
    (now : Time) : List (Int × Nat × Nat) :=
  let evs := (joinEvents st key).filter
    (fun e => decide (now - days * 86400 ≤ e.clicked_at))
  sortByDesc (fun t => t.1)
    ((dedup (evs.map (fun e => dayOf e.clicked_at))).map (fun d =>
      let dayEvs := evs.filter (fun e => dayOf e.clicked_at == d)
      (d, dayEvs.length, (dedup (dayEvs.filterMap (fun e => e.ip_hash))).length)))

/-- cache/link_cache.rs: the moka cache, modelled as an association list;
insertion shadows, invalidation removes every pair for the key.  TTL and
LRU eviction are not modelled: every theorem that touches the cache
quantifies over arbitrary cache contents, which covers any eviction. -/
abbrev Cache := List (String × Link)

/-- link_cache.rs: get. -/
def cacheGet (c : Cache) (key : String) : Option Link :=
  (c.find? (fun p => p.1 == key)).map (fun p => p.2)

/-- link_cache.rs: set (insert). -/
def cacheSet (c : Cache) (key : String) (l : Link) : Cache :=
  (key, l) :: c

/-- link_cache.rs: invalidate. -/
def cacheInvalidate (c : Cache) (key : String) : Cache :=
  c.filter (fun p => p.1 != key)

/-- link_cache.rs: clear (invalidate_all). -/
def cacheClear (_c : Cache) : Cache := []

/-- The state a LinkService call can read and write: the durable store
and the in-memory cache. -/
structure SState where
  store : Store
  cache : Cache
deriving DecidableEq

/-- Result of url::Url::parse as far as the service inspects it: the
scheme and the optional host.  The parser itself is an external crate,
passed in as a parameter. -/
structure ParsedUrl where
  scheme : String
  host : Option String
deriving DecidableEq

/-- Result of the woothee user-agent parse as far as
analytics_service.rs inspects it: name, os and category strings. -/
structure UAResult where
  name : String
  os : String
  category : String
deriving DecidableEq

/-- The distinct anyhow! error sites of link_service.rs, one constructor
per message. -/
inductive ServiceError where
  | urlTooLong
  | invalidUrlFormat
  | urlSchemeNotHttp
  | urlNoHost
  | aliasEmpty
  | aliasTooLong
  | aliasBadChars
  | customAliasExists
  | keyGenExhausted
deriving DecidableEq

/-- The four error sites of validate_url. -/
def ServiceError.isUrlValidation : ServiceError → Bool
  | .urlTooLong => true
  | .invalidUrlFormat => true
  | .urlSchemeNotHttp => true
  | .urlNoHost => true
  | _ => false

/-- api/handlers.rs: enum AppError — every anyhow error becomes Internal
(the From impl); only the explicit not-found paths build NotFound. -/
inductive AppError where
  | Internal (e : ServiceError)
  | NotFound (msg : String)
deriving DecidableEq

/-- api/handlers.rs: IntoResponse for AppError — Internal maps to a
generic 500 body that leaks no detail, NotFound to 404 with its message. -/
def AppError.toResponse : AppError → Nat × String
  | .Internal _ => (500, "Internal server error")
  | .NotFound msg => (404, msg)

/-- domain/models.rs: struct CreateLinkRequest. -/
structure CreateLinkRequest where
  url : String
  custom_alias : Option String
  expires_in : Option Int
  owner_id : Option Nat
deriving DecidableEq

/-- domain/models.rs: struct LinkResponse. -/
structure LinkResponse where
  key : String
  short_url : String
  original_url : String
  qr_code_url : String
  created_at : Time
  expires_at : Option Time
deriving DecidableEq

/-- domain/models.rs: struct LinkStats. -/
structure LinkStats where
  key : String
  original_url : String
  click_count : Int
  created_at : Time
  expires_at : Option Time
deriving DecidableEq

/-- link_service.rs: validate_url — length ≤ 2048, parses, http(s)
scheme, host present, checked in that order. -/
def validate_url (parse : String → Option ParsedUrl) (url : String) :
    Except ServiceError Unit :=
  if url.length > 2048 then .error .urlTooLong
  else
    match parse url with
    | none => .error .invalidUrlFormat
    | some u =>
      if !(u.scheme == "http" || u.scheme == "https") then
        .error .urlSchemeNotHttp
      else if u.host.isNone then .error .urlNoHost
      else .ok ()

/-- link_service.rs: the alias character test (Rust uses Unicode
is_alphanumeric; the witnesses only use ASCII, where the two agree). -/
def isAliasChar (c : Char) : Bool := c.isAlphanum || c == '-' || c == '_'

/-- link_service.rs: validate_custom_alias — non-empty, length ≤ 10,
alphanumeric/hyphen/underscore. -/
def validate_custom_alias (a : String) : Except ServiceError Unit :=
  if a.isEmpty then .error .aliasEmpty
  else if a.length > 10 then .error .aliasTooLong
  else if !(a.toList.all isAliasChar) then .error .aliasBadChars
  else .ok ()

/-- nanoid::alphabet::SAFE, the URL-safe 64-character alphabet:
underscore, hyphen, the ten digits, the lowercase and the uppercase
letters (built from their character codes). -/
def safeAlphabet : List Char :=
  '_' :: '-' ::
    ((List.range 10).map (fun n => Char.ofNat (48 + n)) ++
     (List.range 26).map (fun n => Char.ofNat (97 + n)) ++
     (List.range 26).map (fun n => Char.ofNat (65 + n)))

/-- The shape nanoid!(7, SAFE) guarantees for every draw: exactly 7
characters, all from the safe alphabet. -/
def isSafeKey (s : String) : Bool :=
  s.length == 7 && s.toList.all (fun c => c ∈ safeAlphabet)

/-- Store reads and writes a service call performs, in order. -/
inductive Effect where
  | readExists (key : String)
  | createRow (key url : String)
  | cacheWrite (key : String)
  | storeIncrement (key : String)
  | cacheInvalidate (key : String)
deriving DecidableEq

/-- link_service.rs: the body of generate_unique_key — for _ in 0..10
draw a candidate, return it unless it exists.  gen i is the i-th nanoid
draw; the trace records each existence check. -/
def genLoop (store : Store) (gen : Nat → String) :
    Nat → Nat → Except ServiceError String × List Effect
  | 0, _ => (.error .keyGenExhausted, [])
  | fuel + 1, i =>
    if store.existsKey (gen i) then
      let r := genLoop store gen fuel (i + 1)
      (r.1, .readExists (gen i) :: r.2)
    else (.ok (gen i), [.readExists (gen i)])

/-- link_service.rs: generate_unique_key — 10 attempts, then the
"Failed to generate unique key after 10 attempts" error. -/
def generate_unique_key (store : Store) (gen : Nat → String) :
    Except ServiceError String × List Effect :=
  genLoop store gen 10 0

/-- link_service.rs, create_link lines 37-45: pick the key — validate a
supplied alias and reject an existing one with the "Custom alias already
exists" error, else draw a generated key. -/
def chooseKey (store : Store) (gen : Nat → String) :
    Option String → Except ServiceError String × List Effect
  | some a =>
    match validate_custom_alias a with
    | .error e => (.error e, [])
    | .ok _ =>
      if store.existsKey a then (.error .customAliasExists, [.readExists a])
      else (.ok a, [.readExists a])
  | none => generate_unique_key store gen

/-- link_service.rs: link_to_response. -/
def link_to_response (base_url : String) (link : Link) : LinkResponse :=
  { key := link.key
    short_url := base_url ++ "/" ++ link.key
    original_url := link.original_url
    qr_code_url := base_url ++ "/qr/" ++ link.key
    created_at := link.created_at
    expires_at := link.expires_at }

/-- link_service.rs: create_link — validate the URL, pick the key,
compute expires_at = now + expires_in, INSERT the row (the store assigns
freshId and created_at = now), then populate the cache.  The effect
trace records every store/cache access in order; on a validation failure
it is empty and the state is returned unchanged. -/
def create_link (parse : String → Option ParsedUrl) (gen : Nat → String)
    (base_url : String) (st : SState) (req : CreateLinkRequest)
    (now : Time) (freshId : Nat) :
    Except ServiceError LinkResponse × SState × List Effect :=
  match validate_url parse req.url with
  | .error e => (.error e, st, [])
  | .ok _ =>
    match chooseKey st.store gen req.custom_alias with
    | (.error e, tr) => (.error e, st, tr)
    | (.ok key, tr) =>
      let expires_at := req.expires_in.map (fun s => now + s)
      let link : Link :=
        { id := freshId, key := key, original_url := req.url
          created_at := now, expires_at := expires_at
          click_count := 0, owner_id := req.owner_id }
      (.ok (link_to_response base_url link),
       { store := { st.store with links := st.store.links ++ [link] }
         cache := cacheSet st.cache key link },
       tr ++ [.createRow key req.url, .cacheWrite key])

/-- link_service.rs: get_link — cache hit and live: return; cache hit
but expired: invalidate and fall through; then store read, populating
the cache when the row is live, treating an expired row as absent. -/
def get_link (st : SState) (key : String) (now : Time) :
    Option Link × SState :=
  let fromStore (st : SState) : Option Link × SState :=
    match st.store.find_by_key key with
    | some link =>
      if link.is_expired now then (none, st)
      else (some link, { st with cache := cacheSet st.cache key link })
    | none => (none, st)
  match cacheGet st.cache key with
  | some link =>
    if link.is_expired now then
      fromStore { st with cache := cacheInvalidate st.cache key }
    else (some link, st)
  | none => fromStore st

/-- link_service.rs: increment_click — durable counter update first,
then cache invalidation (never an in-place cache update); the trace
records the two steps in order. -/
def increment_click (st : SState) (key : String) : SState × List Effect :=
  ({ store := st.store.increment_click_count key
     cache := cacheInvalidate st.cache key },
   [.storeIncrement key, .cacheInvalidate key])

/-- analytics_service.rs: parse_user_agent — woothee result mapped to
optional browser/os and a device category. -/
def parse_user_agent (uaParse : String → Option UAResult) (ua : String) :
    Option String × Option String × Option String :=
  match uaParse ua with
  | some r =>
    let browser := if r.name ≠ "UNKNOWN" then some r.name else none
    let osName := if r.os ≠ "UNKNOWN" then some r.os else none
    let device_type :=
      match r.category with
      | "pc" => some "desktop"
      | "smartphone" => some "mobile"
      | "mobilephone" => some "mobile"
      | "appliance" => some "tablet"
      | "crawler" => some "bot"
      | _ => some "other"
    (browser, osName, device_type)
  | none => (none, none, none)

/-- analytics_service.rs: extract_referrer_domain — parse as absolute
URL and take the host, none when unparsable. -/
def extract_referrer_domain (parse : String → Option ParsedUrl)
    (referrer : String) : Option String :=
  (parse referrer).bind (fun u => u.host)

/-- link_service.rs: record_analytics — derive browser/os/device from
the user agent, then INSERT the link_analytics row (clicked_at defaults
to now; country_code and city are filled by an external geo collaborator
and start NULL). -/
def record_analytics (uaParse : String → Option UAResult) (st : SState)
    (link_id : Nat) (referrer user_agent ip_hash : Option String)
    (now : Time) : SState :=
  let parsed :=
    match user_agent with
    | some ua => parse_user_agent uaParse ua
    | none => (none, none, none)
  { st with store := { st.store with events := st.store.events ++
      [{ link_id := link_id, clicked_at := now, referrer := referrer
         user_agent := user_agent, ip_hash := ip_hash
         country_code := none, browser := parsed.1
         os := parsed.2.1, device_type := parsed.2.2, city := none }] } }

/-- link_service.rs: the percentage expression repeated for referrers,
countries and browsers — count / total * 100 guarded by total > 0. -/
def pct (total count : Nat) : ℚ :=
  if 0 < total then (count : ℚ) / (total : ℚ) * 100 else 0

/-- domain/models.rs: struct ReferrerStats. -/
structure ReferrerStats where
  domain : String
  count : Nat
  percentage : ℚ
deriving DecidableEq

/-- domain/models.rs: struct DeviceBreakdown. -/
structure DeviceBreakdown where
  desktop : Nat
  mobile : Nat
  tablet : Nat
  bot : Nat
  other : Nat
deriving DecidableEq

/-- domain/models.rs: struct CountryStats. -/
structure CountryStats where
  country_code : String
  count : Nat
  percentage : ℚ
deriving DecidableEq

/-- domain/models.rs: struct BrowserStats. -/
structure BrowserStats where
  browser : String
  count : Nat
  percentage : ℚ
deriving DecidableEq

/-- domain/models.rs: struct TimeSeriesPoint (the date as a day number). -/
structure TimeSeriesPoint where
  date : Int
  clicks : Nat
  unique_visitors : Nat
deriving DecidableEq

/-- domain/models.rs: struct AnalyticsSummary. -/
structure AnalyticsSummary where
  total_clicks : Nat
  unique_visitors : Nat
  top_referrers : List ReferrerStats
  device_breakdown : DeviceBreakdown
  geographic_distribution : List CountryStats
  browser_stats : List BrowserStats
  time_series : List TimeSeriesPoint
deriving DecidableEq

/-- link_service.rs, get_analytics_summary lines 142-150: the for loop
folding the device rows into the fixed struct — note each arm assigns
rather than adds, and every unrecognized category overwrites other. -/
def foldDevices (rows : List (String × Nat)) : DeviceBreakdown :=
  rows.foldl (fun db p =>
    match p.1 with
    | "desktop" => { db with desktop := p.2 }
    | "mobile" => { db with mobile := p.2 }
    | "tablet" => { db with tablet := p.2 }
    | "bot" => { db with bot := p.2 }
    | _ => { db with other := p.2 })
    { desktop := 0, mobile := 0, tablet := 0, bot := 0, other := 0 }

/-- link_service.rs: get_analytics_summary — none when find_by_key finds
no row (no expiry check), else the independent aggregate queries with
client-side percentages. -/
def get_analytics_summary (st : Store) (key : String) (days : Int)
    (now : Time) : Option AnalyticsSummary :=
  match st.find_by_key key with
  | none => none
  | some _ =>
    let total_clicks := st.get_total_clicks key
    some
      { total_clicks := total_clicks
        unique_visitors := st.get_unique_visitors key
        top_referrers := (st.get_top_referrers key 10).map (fun p =>
          { domain := p.1, count := p.2, percentage := pct total_clicks p.2 })
        device_breakdown := foldDevices (st.get_device_breakdown key)
        geographic_distribution := (st.get_country_stats key 10).map (fun p =>
          { country_code := p.1, count := p.2
            percentage := pct total_clicks p.2 })
        browser_stats := (st.get_browser_stats key 10).map (fun p =>
          { browser := p.1, count := p.2
            percentage := pct total_clicks p.2 })
        time_series := (st.get_time_series key days now).map (fun t =>
          { date := t.1, clicks := t.2.1, unique_visitors := t.2.2 }) }

/-- link_service.rs: get_stats — a plain find_by_key projection, with no
expiry check anywhere on this path. -/
def get_stats (st : Store) (key : String) : Option LinkStats :=
  (st.find_by_key key).map (fun l =>
    { key := l.key, original_url := l.original_url
      click_count := l.click_count, created_at := l.created_at
      expires_at := l.expires_at })

/-- The request headers the redirect handler inspects. -/
structure Headers where
  referer : Option String
  user_agent : Option String
  x_forwarded_for : Option String
  x_real_ip : Option String
deriving DecidableEq

/-- api/handlers.rs, redirect_to_original lines 57-70: hash the first
forwarded-for address, else the real-ip address, else none. -/
def derive_ip_hash (hashIp : String → String) (h : Headers) :
    Option String :=
  match h.x_forwarded_for with
  | some v => (v.splitOn ",").head?.map (fun ip => hashIp ip.trim)
  | none =>
    match h.x_real_ip with
    | some v => some (hashIp v)
    | none => none

/-- What the redirect handler returns to its caller. -/
inductive RedirectResult where
  | redirect (url : String)
  | notFound
deriving DecidableEq

/-- api/handlers.rs: redirect_to_original — resolve via get_link (404
when absent), derive referrer/user-agent/ip-hash from the headers, then
spawn the detached increment + analytics insert whose Results are
discarded with let _ =.  incOk and recOk are failure oracles for the two
detached store writes: a failed write leaves the durable state
unchanged and its error is swallowed.  The response is built from the
resolved link before the detached work runs. -/
def redirect_to_original (hashIp : String → String)
    (uaParse : String → Option UAResult) (st : SState) (key : String)
    (h : Headers) (now : Time) (incOk recOk : Bool) :
    RedirectResult × SState :=
  match get_link st key now with
  | (none, st1) => (.notFound, st1)
  | (some link, st1) =>
    let referrer := h.referer
    let user_agent := h.user_agent
    let ip_hash := derive_ip_hash hashIp h
    let st2 := if incOk then (increment_click st1 key).1 else st1
    let st3 :=
      if recOk then
        record_analytics uaParse st2 link.id referrer user_agent ip_hash now
      else st2
    (.redirect link.original_url, st3)

/-- api/handlers.rs: get_detailed_analytics — resolve via get_link (so
the expiry check applies), then the raw event rows ordered by clicked_at
DESC limited. -/
def get_detailed_analytics (st : SState) (key : String) (now : Time)
    (limit : Nat) : Except AppError (List ClickEvent) × SState :=
  match get_link st key now with
  | (none, st1) => (.error (.NotFound "Link not found"), st1)
  | (some _, st1) =>
    (.ok ((sortByDesc (fun e => e.clicked_at)
      (joinEvents st1.store key)).take limit), st1)

/-! ### Concrete collaborator instances and example states, used by the
witnesses and counterexamples below -/

/-- A concrete instance of the url parser collaborator, fixed on the
inputs the examples use: one well-formed https URL, one ftp URL,
everything else unparsable. -/
def demoParse (s : String) : Option ParsedUrl :=
  if s = "https://example.com/page" then
    some { scheme := "https", host := some "example.com" }
  else if s = "ftp://files.example.com/" then
    some { scheme := "ftp", host := some "files.example.com" }
  else none

/-- A concrete instance of the nanoid draw: a fixed 7-character key from
the safe alphabet. -/
def demoGen (_ : Nat) : String := "genkey7"

/-- A concrete instance of the ip-hash collaborator. -/
def demoHash (s : String) : String := "h" ++ s

/-- A concrete instance of the user-agent parser that recognizes nothing. -/
def demoUA (_ : String) : Option UAResult := none

/-- The empty service state: empty store, empty cache. -/
def emptySState : SState := { store := { links := [], events := [] }, cache := [] }

/-- C1 example: a persisted link whose expiry (5) is in the past at read
time 10. -/
def c1Link : Link :=
  { id := 1, key := "old", original_url := "https://example.com/page"
    created_at := 0, expires_at := some 5, click_count := 3, owner_id := none }

def c1Store : Store := { links := [c1Link], events := [] }

/-- C1 example: the request of the expires_in = -1 scenario. -/
def c1Req : CreateLinkRequest :=
  { url := "https://example.com/page", custom_alias := some "flash"
    expires_in := some (-1), owner_id := none }

/-- C1 example: the row created from c1Req at time 10 (expires_at 9). -/
def c1CLink : Link :=
  { id := 9, key := "flash", original_url := "https://example.com/page"
    created_at := 10, expires_at := some 9, click_count := 0, owner_id := none }

def c1CResp : LinkResponse :=
  { key := "flash", short_url := "http://sho.rt/flash"
    original_url := "https://example.com/page"
    qr_code_url := "http://sho.rt/qr/flash", created_at := 10
    expires_at := some 9 }

def c1CSt : SState :=
  { store := { links := [c1CLink], events := [] }
    cache := [("flash", c1CLink)] }

/-- C2 example: a link already holding the alias the request asks for. -/
def c2Link : Link :=
  { id := 1, key := "taken", original_url := "https://example.com/page"
    created_at := 0, expires_at := none, click_count := 0, owner_id := none }

def c2St : SState :=
  { store := { links := [c2Link], events := [] }, cache := [] }

def c2Req : CreateLinkRequest :=
  { url := "https://example.com/page", custom_alias := some "taken"
    expires_in := none, owner_id := none }

/-- C3 example: one click whose referrer is not an absolute URL. -/
def c3Link : Link :=
  { id := 1, key := "blog", original_url := "https://example.com/page"
    created_at := 0, expires_at := none, click_count := 1, owner_id := none }

def c3Event : ClickEvent :=
  { link_id := 1, clicked_at := 1, referrer := some "notaurl"
    user_agent := none, ip_hash := none, country_code := none
    browser := none, os := none, device_type := none, city := none }

def c3Store : Store := { links := [c3Link], events := [c3Event] }

/-- C4 example: a live link with 3 persisted clicks and a stale cached
copy still showing 1. -/
def c4Link : Link :=
  { id := 4, key := "pay", original_url := "https://example.com/page"
    created_at := 0, expires_at := none, click_count := 3, owner_id := none }

def c4Stale : Link := { c4Link with click_count := 1 }

def c4St : SState :=
  { store := { links := [c4Link], events := [] }
    cache := [("pay", c4Stale)] }

/-- C5 example: a valid create request with a custom alias and no expiry. -/
def c5Req : CreateLinkRequest :=
  { url := "https://example.com/page", custom_alias := some "home"
    expires_in := none, owner_id := none }

def c5Link : Link :=
  { id := 3, key := "home", original_url := "https://example.com/page"
    created_at := 0, expires_at := none, click_count := 0, owner_id := none }

def c5Resp : LinkResponse :=
  { key := "home", short_url := "http://sho.rt/home"
    original_url := "https://example.com/page"
    qr_code_url := "http://sho.rt/qr/home", created_at := 0
    expires_at := none }

def c5St1 : SState :=
  { store := { links := [c5Link], events := [] }
    cache := [("home", c5Link)] }

def c5Tr : List Effect :=
  [.readExists "home", .createRow "home" "https://example.com/page",
   .cacheWrite "home"]

/-- C6 example: an existing link with no click events at all. -/
def c6Link : Link :=
  { id := 6, key := "fresh", original_url := "https://example.com/page"
    created_at := 0, expires_at := none, click_count := 0, owner_id := none }

def c6Store : Store := { links := [c6Link], events := [] }

/-- C8 example: an empty store, so the first generated draw is free. -/
def c8Store : Store := { links := [], events := [] }

/-- C9 example: a create request whose URL uses the ftp scheme. -/
def c9Req : CreateLinkRequest :=
  { url := "ftp://files.example.com/", custom_alias := none
    expires_in := none, owner_id := none }

/-- C10 example: create a link, then serve one redirect during which the
counter increment succeeds but the analytics insert fails. -/
def c10Req : CreateLinkRequest :=
  { url := "https://example.com/page", custom_alias := some "mylink"
    expires_in := none, owner_id := none }

def c10St1 : SState :=
  (create_link demoParse demoGen "http://sho.rt" emptySState c10Req 0 1).2.1

def c10Hdrs : Headers :=
  { referer := none, user_agent := none, x_forwarded_for := none
    x_real_ip := none }

def c10St2 : SState :=
  (redirect_to_original demoHash demoUA c10St1 "mylink" c10Hdrs 5 true false).2

/-! ### Helper lemmas on the cache and the store -/

lemma cacheGet_set_self (c : Cache) (key : String) (l : Link) :
    cacheGet (cacheSet c key l) key = some l := by
  simp [cacheGet, cacheSet, List.find?]

lemma cacheGet_invalidate_self (c : Cache) (key : String) :
    cacheGet (cacheInvalidate c key) key = none := by
  simp only [cacheGet, cacheInvalidate, Option.map_eq_none']
  rw [List.find?_eq_none]
  intro p hp
  rcases List.mem_filter.mp hp with ⟨_, hne⟩
  simp only [bne_iff_ne, ne_eq] at hne
  simp [hne]

lemma cacheGet_nil (key : String) : cacheGet ([] : Cache) key = none := rfl

lemma find_by_key_eq_none_of_not_exists (st : Store) (key : String)
    (h : st.existsKey key = false) : st.find_by_key key = none := by
  simp only [Store.existsKey, List.any_eq_false] at h
  simp only [Store.find_by_key]
  rw [List.find?_eq_none]
  intro l hl
  exact fun hb => (h l hl) hb

lemma find_by_key_append_self (st : Store) (l : Link)
    (h : st.existsKey l.key = false) :
    Store.find_by_key { st with links := st.links ++ [l] } l.key = some l := by
  simp only [Store.find_by_key, List.find?_append]
  have hn : st.links.find? (fun x => x.key == l.key) = none := by
    have := find_by_key_eq_none_of_not_exists st l.key h
    simpa [Store.find_by_key] using this
  simp [hn, List.find?]

lemma existsKey_append_self (st : Store) (l : Link) :
    Store.existsKey { st with links := st.links ++ [l] } l.key = true := by
  simp [Store.existsKey]

lemma find_by_key_increment (st : Store) (key : String) :
    (st.increment_click_count key).find_by_key key =
      (st.find_by_key key).map
        (fun l => { l with click_count := l.click_count + 1 }) := by
  simp only [Store.increment_click_count, Store.find_by_key]
  induction st.links with
  | nil => rfl
  | cons hd tl ih =>
    simp only [List.map_cons, List.find?]
    cases hk : hd.key == key with
    | true =>
      have hk2 : (({ hd with click_count := hd.click_count + 1 } : Link).key
        == key) = true := hk
      simp [hk, hk2]
    | false =>
      have hk2 : (({ hd with click_count := hd.click_count + 1 } : Link).key
        == key) = false := hk
      simp only [hk, hk2, if_neg Bool.false_ne_true]
      simpa using ih

/-! ### Helper lemmas: success postconditions of the create path -/

lemma genLoop_ok_not_exists (store : Store) (gen : Nat → String) :
    ∀ fuel i k tr, genLoop store gen fuel i = (.ok k, tr) →
      store.existsKey k = false := by
  intro fuel
  induction fuel with
  | zero => intro i k tr h; simp [genLoop] at h
  | succ n ih =>
    intro i k tr h
    simp only [genLoop] at h
    by_cases he : store.existsKey (gen i) = true
    · rw [if_pos he] at h
      have h1 : (genLoop store gen n (i + 1)).1 = .ok k := by
        have := congrArg Prod.fst h
        simpa using this
      refine ih (i + 1) k (genLoop store gen n (i + 1)).2 ?_
      rw [← h1]
    · rw [if_neg he] at h
      have h1 : (Except.ok (gen i) : Except ServiceError String) =
          Except.ok k := by
        have := congrArg Prod.fst h
        simpa using this
      injection h1 with h1
      rw [← h1]
      simpa using he

lemma chooseKey_ok_not_exists (store : Store) (gen : Nat → String)
    (o : Option String) (k : String) (tr : List Effect)
    (h : chooseKey store gen o = (.ok k, tr)) :
    store.existsKey k = false := by
  cases o with
  | none => exact genLoop_ok_not_exists store gen 10 0 k tr h
  | some a =>
    simp only [chooseKey] at h
    cases hv : validate_custom_alias a with
    | error e => rw [hv] at h; simp at h
    | ok u =>
      rw [hv] at h
      by_cases he : store.existsKey a = true
      · rw [if_pos he] at h; simp at h
      · rw [if_neg he] at h
        have hk : a = k := by
          have := congrArg Prod.fst h
          simpa using this
        rw [← hk]
        simpa using he

/-- The full success postcondition of create_link: the chosen key was
fresh, the response mirrors the inserted row, the row is appended to the
store and the cache is populated with it. -/
lemma create_link_ok (parse : String → Option ParsedUrl)
    (gen : Nat → String) (base : String) (st : SState)
    (req : CreateLinkRequest) (now : Time) (fid : Nat)
    (resp : LinkResponse) (st' : SState) (tr : List Effect)
    (h : create_link parse gen base st req now fid = (.ok resp, st', tr)) :
    ∃ key,
      st.store.existsKey key = false ∧
      resp = link_to_response base
        { id := fid, key := key, original_url := req.url, created_at := now
          expires_at := req.expires_in.map (fun s => now + s)
          click_count := 0, owner_id := req.owner_id } ∧
      st' = { store := { st.store with links := st.store.links ++
                [{ id := fid, key := key, original_url := req.url
                   created_at := now
                   expires_at := req.expires_in.map (fun s => now + s)
                   click_count := 0, owner_id := req.owner_id }] }
              cache := cacheSet st.cache key
                { id := fid, key := key, original_url := req.url
                  created_at := now
                  expires_at := req.expires_in.map (fun s => now + s)
                  click_count := 0, owner_id := req.owner_id } } := by
  simp only [create_link] at h
  cases hv : validate_url parse req.url with
  | error e => simp only [hv] at h; simp at h
  | ok u =>
    simp only [hv] at h
    cases hc : chooseKey st.store gen req.custom_alias with
    | mk r trc =>
      cases r with
      | error e => simp only [hc] at h; simp at h
      | ok key =>
        simp only [hc] at h
        refine ⟨key, chooseKey_ok_not_exists st.store gen _ key trc hc, ?_, ?_⟩
        · have h1 := congrArg Prod.fst h
          simp only at h1
          injection h1 with h1
          exact h1.symm
        · have h2 := congrArg (fun x => x.2.1) h
          simpa using h2.symm

/-! ### Helper lemmas on the aggregation combinators -/

lemma mem_insertByDesc {α β : Type} [LinearOrder β] (m : α → β) (a x : α)
    (l : List α) : x ∈ insertByDesc m a l ↔ x = a ∨ x ∈ l := by
  induction l with
  | nil => simp [insertByDesc]
  | cons b bs ih =>
    simp only [insertByDesc]
    by_cases h : m a ≤ m b
    · rw [if_pos h]
      simp only [List.mem_cons, ih]
      tauto
    · rw [if_neg h]
      simp only [List.mem_cons]

lemma pairwise_insertByDesc {α β : Type} [LinearOrder β] (m : α → β)
    (a : α) (l : List α) (h : l.Pairwise (fun x y => m y ≤ m x)) :
    (insertByDesc m a l).Pairwise (fun x y => m y ≤ m x) := by
  induction l with
  | nil => simp [insertByDesc]
  | cons b bs ih =>
    rcases List.pairwise_cons.mp h with ⟨hb, hbs⟩
    by_cases hab : m a ≤ m b
    · simp only [insertByDesc, if_pos hab]
      rw [List.pairwise_cons]
      refine ⟨?_, ih hbs⟩
      intro y hy
      rcases (mem_insertByDesc m a y bs).mp hy with rfl | hy2
      · exact hab
      · exact hb y hy2
    · simp only [insertByDesc, if_neg hab]
      rw [List.pairwise_cons]
      refine ⟨?_, h⟩
      intro y hy
      have hba : m b ≤ m a := le_of_not_le hab
      rcases List.mem_cons.mp hy with rfl | hy2
      · exact hba
      · exact le_trans (hb y hy2) hba

lemma mem_sortByDesc {α β : Type} [LinearOrder β] (m : α → β) (x : α)
    (l : List α) : x ∈ sortByDesc m l ↔ x ∈ l := by
  induction l with
  | nil => simp [sortByDesc]
  | cons a rest ih =>
    simp [sortByDesc, mem_insertByDesc, ih]

lemma pairwise_sortByDesc {α β : Type} [LinearOrder β] (m : α → β)
    (l : List α) : (sortByDesc m l).Pairwise (fun x y => m y ≤ m x) := by
  induction l with
  | nil => simp [sortByDesc]
  | cons a rest ih => exact pairwise_insertByDesc m a _ ih

lemma mem_of_mem_dedupAux {α : Type} [DecidableEq α] :
    ∀ (l seen : List α) (x : α), x ∈ dedupAux l seen → x ∈ l := by
  intro l
  induction l with
  | nil => intro seen x hx; simp [dedupAux] at hx
  | cons a rest ih =>
    intro seen x hx
    simp only [dedupAux] at hx
    by_cases hmem : a ∈ seen
    · rw [if_pos hmem] at hx
      exact List.mem_cons_of_mem _ (ih seen x hx)
    · rw [if_neg hmem] at hx
      rcases List.mem_cons.mp hx with rfl | hx2
      · exact List.mem_cons_self _ _
      · exact List.mem_cons_of_mem _ (ih _ x hx2)

lemma tally_mem {α : Type} [DecidableEq α] (xs : List α) (p : α × Nat)
    (h : p ∈ tally xs) : p.1 ∈ xs ∧ p.2 = occs xs p.1 := by
  simp only [tally, List.mem_map] at h
  rcases h with ⟨a, ha, hpa⟩
  have h1 : p.1 = a := by rw [← hpa]
  have h2 : p.2 = occs xs a := by rw [← hpa]
  rw [h1, h2]
  exact ⟨mem_of_mem_dedupAux xs [] a ha, rfl⟩

/-! ### Full behaviour of the bounded key-generation loop -/

lemma genLoop_spec (store : Store) (gen : Nat → String) :
    ∀ fuel i,
      (∃ j, i ≤ j ∧ j < i + fuel ∧
        (genLoop store gen fuel i).1 = .ok (gen j) ∧
        store.existsKey (gen j) = false ∧
        ∀ k, i ≤ k → k < j → store.existsKey (gen k) = true) ∨
      ((genLoop store gen fuel i).1 = .error .keyGenExhausted ∧
        ∀ k, i ≤ k → k < i + fuel → store.existsKey (gen k) = true) := by
  intro fuel
  induction fuel with
  | zero =>
    intro i
    right
    exact ⟨rfl, fun k hk1 hk2 => absurd hk2 (by omega)⟩
  | succ n ih =>
    intro i
    by_cases he : store.existsKey (gen i) = true
    · rcases ih (i + 1) with ⟨j, hj1, hj2, hj3, hj4, hj5⟩ | ⟨h1, h2⟩
      · left
        refine ⟨j, by omega, by omega, ?_, hj4, ?_⟩
        · simp only [genLoop, if_pos he]
          exact hj3
        · intro k hk1 hk2
          rcases Nat.eq_or_lt_of_le hk1 with rfl | hlt
          · exact he
          · exact hj5 k (by omega) hk2
      · right
        refine ⟨?_, ?_⟩
        · simp only [genLoop, if_pos he]
          exact h1
        · intro k hk1 hk2
          rcases Nat.eq_or_lt_of_le hk1 with rfl | hlt
          · exact he
          · exact h2 k (by omega) (by omega)
    · left
      refine ⟨i, le_refl i, by omega, ?_, by simpa using he, ?_⟩
      · simp [genLoop, if_neg he]
      · intro k hk1 hk2
        exact absurd hk2 (by omega)

/-! ### Claim theorems -/

/-- Claim C1, counterexample: at read time 10 the stored link (expiry 5)
is expired and resolve treats it as not found, yet get_stats returns its
full row and get_analytics_summary returns a summary — so it is false
that every public read operation treats an expired key as not found. -/
theorem C1_counterexample :
    c1Link.is_expired 10 = true ∧
    c1Store.find_by_key "old" = some c1Link ∧
    get_stats c1Store "old" = some
      { key := "old", original_url := "https://example.com/page"
        click_count := 3, created_at := 0, expires_at := some 5 } ∧
    (get_analytics_summary c1Store "old" 30 10).isSome = true ∧
    (get_link { store := c1Store, cache := [] } "old" 10).1 = none := by
  decide

/-- Claim C2, counterexample: a create request whose custom alias equals
the existing key "taken" returns the alias-conflict error and leaves the
state untouched, but that error reaches the caller as AppError::Internal
whose HTTP response is byte-identical to the one produced for a URL
validation error and to the generic internal-error response — it is not
a distinct ConflictError. -/
theorem C2_counterexample :
    (create_link demoParse demoGen "http://sho.rt" c2St c2Req 0 2).1 =
      .error .customAliasExists ∧
    (create_link demoParse demoGen "http://sho.rt" c2St c2Req 0 2).2.1 = c2St ∧
    (AppError.Internal .customAliasExists).toResponse =
      (AppError.Internal .invalidUrlFormat).toResponse ∧
    (AppError.Internal .customAliasExists).toResponse =
      (500, "Internal server error") :=
  ⟨rfl, rfl, rfl, rfl⟩

/-- Claim C3, counterexample: a click whose referrer "notaurl" does not
parse as an absolute URL (no derived domain) still appears, verbatim, as
an entry of top_referrers — the SQL groups by the raw referrer string
and never extracts a host, so the claimed domain ranking is false. -/
theorem C3_counterexample :
    extract_referrer_domain demoParse "notaurl" = none ∧
    (get_analytics_summary c3Store "blog" 30 10).map
      (fun s => s.top_referrers.map (fun r => (r.domain, r.count))) =
      some [("notaurl", 1)] := by
  decide

/-- Claim C7: the response component of the redirect handler is the same
for every outcome (success or failure) of the detached click-increment
and analytics-capture writes — a persistence failure on the capture path
is swallowed and never propagates to or alters the redirect response. -/
theorem C7_redirect_independent_of_capture (hashIp : String → String)
    (uaParse : String → Option UAResult) (st : SState) (key : String)
    (h : Headers) (now : Time) (o1 o2 p1 p2 : Bool) :
    (redirect_to_original hashIp uaParse st key h now o1 o2).1 =
    (redirect_to_original hashIp uaParse st key h now p1 p2).1 := by
  simp only [redirect_to_original]
  cases hg : get_link st key now with
  | mk r s =>
    cases r with
    | none => rfl
    | some link => rfl

/-- Claim C10: in the reachable state built by create("mylink") followed
by one redirect whose detached counter increment succeeded while the
analytics insert failed, get_stats reports click_count = 1 while
summarize reports total_clicks = 0: total_clicks counts persisted
ClickEvent rows (of which there are none), not the Link row's counter. -/
theorem C10_counter_vs_event_rows :
    (get_stats c10St2.store "mylink").map (fun s => s.click_count) = some 1 ∧
    (get_analytics_summary c10St2.store "mylink" 30 5).map
      (fun s => s.total_clicks) = some 0 ∧
    c10St2.store.events = [] ∧
    ((1 : Int) ≠ ((0 : Nat) : Int)) := by
  refine ⟨by decide, by decide, by decide, by decide⟩

/-- Claim C1 (amended): an expired-but-persisted link is treated as not
found by resolve (get_link) and by get_detailed_analytics (which goes
through get_link), while get_stats and get_analytics_summary perform no
expiry check and return the persisted row; a link created with
expires_in = -1 therefore resolves to not-found immediately after
creation even though its row remains in the store (witnessed at a
post-create state). -/
theorem C1_expiry_visibility_amended (st : SState) (key : String)
    (now : Time) (l : Link) (days : Int) (limit : Nat)
    (hl : st.store.find_by_key key = some l)
    (hexp : l.is_expired now = true)
    (hc : cacheGet st.cache key = none ∨ cacheGet st.cache key = some l) :
    (get_link st key now).1 = none ∧
    (get_detailed_analytics st key now limit).1 =
      .error (.NotFound "Link not found") ∧
    get_stats st.store key = some
      { key := l.key, original_url := l.original_url
        click_count := l.click_count, created_at := l.created_at
        expires_at := l.expires_at } ∧
    (get_analytics_summary st.store key days now).isSome = true := by
  have hmain : ∃ s, get_link st key now = (none, s) := by
    rcases hc with hc | hc
    · exact ⟨st, by simp [get_link, hc, hl, hexp]⟩
    · exact ⟨{ st with cache := cacheInvalidate st.cache key },
        by simp [get_link, hc, hl, hexp]⟩
  obtain ⟨s, hs⟩ := hmain
  refine ⟨by rw [hs], ?_, ?_, ?_⟩
  · simp [get_detailed_analytics, hs]
  · simp [get_stats, hl]
  · simp [get_analytics_summary, hl]

/-- Claim C1, witness: instantiates the amended theorem at the state
produced by create with expires_in = -1 at time 10 — the link resolves
to not-found immediately, while its row is still returned by get_stats. -/
theorem C1_witness :
    create_link demoParse demoGen "http://sho.rt" emptySState c1Req 10 9 =
      (.ok c1CResp, c1CSt,
        [.readExists "flash",
         .createRow "flash" "https://example.com/page",
         .cacheWrite "flash"]) ∧
    ((get_link c1CSt "flash" 10).1 = none ∧
     (get_detailed_analytics c1CSt "flash" 10 50).1 =
       .error (.NotFound "Link not found") ∧
     get_stats c1CSt.store "flash" = some
       { key := c1CLink.key, original_url := c1CLink.original_url
         click_count := c1CLink.click_count
         created_at := c1CLink.created_at
         expires_at := c1CLink.expires_at } ∧
     (get_analytics_summary c1CSt.store "flash" 30 10).isSome = true) :=
  ⟨rfl, C1_expiry_visibility_amended c1CSt "flash" 10 c1CLink 30 50
    (by decide) (by decide) (Or.inr (by decide))⟩

/-- Claim C2 (amended): a create request with a custom alias equal to an
existing key returns the alias-conflict error while leaving the state
unchanged, with only one existence read performed; but the error is not
a distinct ConflictError — surfaced through AppError it yields the very
same response as a ValidationError and as any generic internal error. -/
theorem C2_alias_conflict_amended (parse : String → Option ParsedUrl)
    (gen : Nat → String) (base : String) (st : SState)
    (req : CreateLinkRequest) (now : Time) (fid : Nat) (a : String)
    (ha : req.custom_alias = some a)
    (hurl : validate_url parse req.url = .ok ())
    (hal : validate_custom_alias a = .ok ())
    (hex : st.store.existsKey a = true) :
    create_link parse gen base st req now fid =
      (.error .customAliasExists, st, [.readExists a]) ∧
    (AppError.Internal .customAliasExists).toResponse =
      (AppError.Internal .invalidUrlFormat).toResponse ∧
    (AppError.Internal .customAliasExists).toResponse =
      (500, "Internal server error") := by
  refine ⟨?_, rfl, rfl⟩
  simp [create_link, hurl, ha, chooseKey, hal, hex]

/-- Claim C2, witness: the amended theorem at the concrete conflicting
request against the store already holding "taken". -/
theorem C2_witness :
    create_link demoParse demoGen "http://sho.rt" c2St c2Req 0 2 =
      (.error .customAliasExists, c2St, [.readExists "taken"]) ∧
    (AppError.Internal .customAliasExists).toResponse =
      (AppError.Internal .invalidUrlFormat).toResponse ∧
    (AppError.Internal .customAliasExists).toResponse =
      (500, "Internal server error") :=
  C2_alias_conflict_amended demoParse demoGen "http://sho.rt" c2St c2Req
    0 2 "taken" rfl rfl rfl (by decide)

/-- Claim C4: record_click performs the durable counter increment first
and the cache invalidation second (trace order), removes rather than
updates the cache entry, and a subsequent resolve of a live key returns
the stored count plus exactly one — for every prior cache content,
including a stale cached copy. -/
theorem C4_increment_then_invalidate (st : SState) (key : String)
    (now : Time) (l : Link)
    (hl : st.store.find_by_key key = some l)
    (hexp : l.is_expired now = false) :
    (increment_click st key).2 =
      [.storeIncrement key, .cacheInvalidate key] ∧
    cacheGet (increment_click st key).1.cache key = none ∧
    ((get_link (increment_click st key).1 key now).1).map
      (fun x => x.click_count) = some (l.click_count + 1) := by
  refine ⟨rfl, cacheGet_invalidate_self st.cache key, ?_⟩
  have hexp2 : ({ l with click_count := l.click_count + 1 } : Link).is_expired
      now = false := hexp
  simp [increment_click, get_link, cacheGet_invalidate_self,
    find_by_key_increment, hl, hexp2]

/-- Claim C4, witness: the theorem at a state whose cache still holds a
stale copy (count 1) of a link whose durable count is 3 — after
record_click the resolve returns 4. -/
theorem C4_witness :
    (increment_click c4St "pay").2 =
      [.storeIncrement "pay", .cacheInvalidate "pay"] ∧
    cacheGet (increment_click c4St "pay").1.cache "pay" = none ∧
    ((get_link (increment_click c4St "pay").1 "pay" 50).1).map
      (fun x => x.click_count) = some (c4Link.click_count + 1) :=
  C4_increment_then_invalidate c4St "pay" 50 c4Link (by decide) (by decide)

/-- Claim C5: whenever create succeeds and the created link has not yet
expired at read time, resolving the returned key yields a link whose
original_url equals the requested URL exactly — both against the state
create left behind (cache hit) and after clearing the cache (rebuilt
lazily from the store). -/
theorem C5_roundtrip (parse : String → Option ParsedUrl)
    (gen : Nat → String) (base : String) (st : SState)
    (req : CreateLinkRequest) (now : Time) (fid : Nat)
    (resp : LinkResponse) (st' : SState) (tr : List Effect) (now' : Time)
    (hc : create_link parse gen base st req now fid = (.ok resp, st', tr))
    (hlive : ∀ e, resp.expires_at = some e → ¬ e < now') :
    ((get_link st' resp.key now').1).map (fun l => l.original_url) =
      some req.url ∧
    ((get_link { st' with cache := cacheClear st'.cache } resp.key
      now').1).map (fun l => l.original_url) = some req.url := by
  obtain ⟨key, hfresh, hresp, hst⟩ :=
    create_link_ok parse gen base st req now fid resp st' tr hc
  have hexp : Link.is_expired
      { id := fid, key := key, original_url := req.url, created_at := now
        expires_at := req.expires_in.map (fun s => now + s)
        click_count := 0, owner_id := req.owner_id } now' = false := by
    simp only [Link.is_expired]
    cases hE : req.expires_in.map (fun s => now + s) with
    | none => rfl
    | some e =>
      have hne := hlive e (by rw [hresp]; simpa [link_to_response] using hE)
      simp [hne]
  subst hst
  subst hresp
  constructor
  · simp only [get_link, link_to_response]
    rw [cacheGet_set_self]
    simp [hexp]
  · simp only [get_link, link_to_response, cacheClear, cacheGet_nil]
    rw [find_by_key_append_self st.store _ hfresh]
    simp [hexp]

/-- Claim C5, witness: the round trip at a concrete successful create
(alias "home", no expiry), read at time 100 with and without the cache. -/
theorem C5_witness :
    ((get_link c5St1 c5Resp.key 100).1).map (fun l => l.original_url) =
      some c5Req.url ∧
    ((get_link { c5St1 with cache := cacheClear c5St1.cache } c5Resp.key
      100).1).map (fun l => l.original_url) = some c5Req.url :=
  C5_roundtrip demoParse demoGen "http://sho.rt" emptySState c5Req 0 3
    c5Resp c5St1 c5Tr 100 rfl (fun e he => by simp [c5Resp] at he)

/-- Claim C6: for an existing key with zero persisted click events the
summary is total_clicks = 0, unique_visitors = 0, every ranked list
empty, the device breakdown all zero — and the guarded percentage
computation returns 0 at total_clicks = 0 for every count, so it never
divides by zero. -/
theorem C6_zero_clicks (st : Store) (key : String) (days : Int)
    (now : Time) (l : Link)
    (hl : st.find_by_key key = some l)
    (hev : joinEvents st key = []) :
    get_analytics_summary st key days now = some
      { total_clicks := 0, unique_visitors := 0, top_referrers := []
        device_breakdown :=
          { desktop := 0, mobile := 0, tablet := 0, bot := 0, other := 0 }
        geographic_distribution := [], browser_stats := []
        time_series := [] } ∧
    (∀ c, pct 0 c = 0) := by
  refine ⟨?_, fun c => by simp [pct]⟩
  simp [get_analytics_summary, hl, Store.get_total_clicks,
    Store.get_unique_visitors, Store.get_top_referrers,
    Store.get_device_breakdown, Store.get_browser_stats,
    Store.get_country_stats, Store.get_time_series, rawReferrers, hev,
    tally, dedup, dedupAux, sortByDesc, foldDevices]

/-- Claim C6, witness: the theorem at a store holding one link and no
events. -/
theorem C6_witness :
    get_analytics_summary c6Store "fresh" 30 100 = some
      { total_clicks := 0, unique_visitors := 0, top_referrers := []
        device_breakdown :=
          { desktop := 0, mobile := 0, tablet := 0, bot := 0, other := 0 }
        geographic_distribution := [], browser_stats := []
        time_series := [] } ∧
    (∀ c, pct 0 c = 0) :=
  C6_zero_clicks c6Store "fresh" 30 100 c6Link (by decide) (by decide)

/-- Claim C8: when every nanoid draw is a 7-character key over the
URL-safe alphabet, generate_unique_key either returns the first of the
at most 10 drawn keys that does not exist in the store (that key being
safe and 7 characters long), or, when all 10 drawn keys collide, fails
with the key-generation-exhausted error — never falling back to a
longer key. -/
theorem C8_bounded_key_generation (store : Store) (gen : Nat → String)
    (hgen : ∀ i, isSafeKey (gen i) = true) :
    (∃ j, j < 10 ∧
      (generate_unique_key store gen).1 = .ok (gen j) ∧
      isSafeKey (gen j) = true ∧
      store.existsKey (gen j) = false ∧
      ∀ k, k < j → store.existsKey (gen k) = true) ∨
    ((generate_unique_key store gen).1 = .error .keyGenExhausted ∧
      ∀ k, k < 10 → store.existsKey (gen k) = true) := by
  rcases genLoop_spec store gen 10 0 with ⟨j, hj1, hj2, hj3, hj4, hj5⟩ | ⟨h1, h2⟩
  · exact Or.inl ⟨j, by omega, hj3, hgen j, hj4,
      fun k hk => hj5 k (Nat.zero_le k) hk⟩
  · exact Or.inr ⟨h1, fun k hk => h2 k (Nat.zero_le k) (by omega)⟩

/-- Claim C8, witness: the theorem at the empty store with a constant
safe 7-character draw. -/
theorem C8_witness :
    (∃ j, j < 10 ∧
      (generate_unique_key c8Store demoGen).1 = .ok (demoGen j) ∧
      isSafeKey (demoGen j) = true ∧
      c8Store.existsKey (demoGen j) = false ∧
      ∀ k, k < j → c8Store.existsKey (demoGen k) = true) ∨
    ((generate_unique_key c8Store demoGen).1 = .error .keyGenExhausted ∧
      ∀ k, k < 10 → c8Store.existsKey (demoGen k) = true) :=
  C8_bounded_key_generation c8Store demoGen
    (fun _ => (by decide : isSafeKey "genkey7" = true))

/-- Claim C9: a create request whose URL is longer than 2048 characters,
or does not parse, or has a non-http(s) scheme, or lacks a host, fails
with one of the four URL-validation errors, with the state returned
unchanged and an empty effect trace — neither the store nor the cache is
read or mutated. -/
theorem C9_invalid_url_rejected_before_effects
    (parse : String → Option ParsedUrl) (gen : Nat → String)
    (base : String) (st : SState) (req : CreateLinkRequest) (now : Time)
    (fid : Nat)
    (h : req.url.length > 2048 ∨ parse req.url = none ∨
      (∃ p, parse req.url = some p ∧
        (p.scheme == "http" || p.scheme == "https") = false) ∨
      (∃ p, parse req.url = some p ∧ p.host = none)) :
    ∃ e, create_link parse gen base st req now fid = (.error e, st, []) ∧
      e.isUrlValidation = true := by
  have hv : ∃ e, validate_url parse req.url = .error e ∧
      e.isUrlValidation = true := by
    by_cases hlen : req.url.length > 2048
    · exact ⟨.urlTooLong, by simp [validate_url, hlen], rfl⟩
    · rcases h with h | h | ⟨p, hp, hs⟩ | ⟨p, hp, hh⟩
      · exact absurd h hlen
      · exact ⟨.invalidUrlFormat, by simp [validate_url, hlen, h], rfl⟩
      · exact ⟨.urlSchemeNotHttp, by simp [validate_url, hlen, hp, hs], rfl⟩
      · by_cases hs2 : (p.scheme == "http" || p.scheme == "https") = true
        · exact ⟨.urlNoHost, by simp [validate_url, hlen, hp, hs2, hh], rfl⟩
        · exact ⟨.urlSchemeNotHttp, by
            simp [validate_url, hlen, hp,
              Bool.eq_false_iff.mpr hs2], rfl⟩
  obtain ⟨e, he, hval⟩ := hv
  exact ⟨e, by simp [create_link, he], hval⟩

/-- Claim C9, witness: the theorem at the ftp-scheme request — it fails
with a URL-validation error, produces no effects and leaves the state
unchanged. -/
theorem C9_witness :
    ∃ e, create_link demoParse demoGen "http://sho.rt" emptySState c9Req
      0 5 = (.error e, emptySState, []) ∧ e.isUrlValidation = true :=
  C9_invalid_url_rejected_before_effects demoParse demoGen "http://sho.rt"
    emptySState c9Req 0 5
    (Or.inr (Or.inr (Or.inl
      ⟨{ scheme := "ftp", host := some "files.example.com" }, rfl, rfl⟩)))

/-- Claim C3 (amended): for every existing key the summary's
top_referrers list is capped at 10 entries, ranked by count descending,
and each entry carries a raw non-empty referrer string of some persisted
click of that link together with the exact number of clicks bearing that
raw referrer and its guarded percentage — no URL parsing or domain
extraction is applied, so the same domain under different full URLs is
counted separately and unparsable referrers appear verbatim. -/
theorem C3_top_referrers_amended (st : Store) (key : String) (days : Int)
    (now : Time) (l : Link)
    (hl : st.find_by_key key = some l) :
    ∃ S, get_analytics_summary st key days now = some S ∧
      S.top_referrers.length ≤ 10 ∧
      S.top_referrers.Pairwise (fun a b => b.count ≤ a.count) ∧
      ∀ r ∈ S.top_referrers,
        r.domain ∈ rawReferrers st key ∧
        r.count = occs (rawReferrers st key) r.domain ∧
        r.percentage = pct S.total_clicks r.count := by
  simp only [get_analytics_summary, hl]
  refine ⟨_, rfl, ?_, ?_, ?_⟩
  · simp only [List.length_map, Store.get_top_referrers]
    exact List.length_take_le 10 _
  · simp only [Store.get_top_referrers]
    rw [List.pairwise_map]
    exact (pairwise_sortByDesc (fun p => p.2)
      (tally (rawReferrers st key))).sublist
      (List.take_sublist 10 _)
  · intro r hr
    simp only [Store.get_top_referrers, List.mem_map] at hr
    obtain ⟨p, hp, hrp⟩ := hr
    have hp2 : p ∈ sortByDesc (fun q => q.2) (tally (rawReferrers st key)) :=
      List.take_subset 10 _ hp
    have hp3 : p ∈ tally (rawReferrers st key) :=
      (mem_sortByDesc (fun q => q.2) p _).mp hp2
    obtain ⟨hmem, hcount⟩ := tally_mem (rawReferrers st key) p hp3
    rw [← hrp]
    exact ⟨hmem, hcount, rfl⟩

/-- Claim C3, witness: the amended theorem at the store holding one
click with the unparsable referrer "notaurl". -/
theorem C3_witness :
    ∃ S, get_analytics_summary c3Store "blog" 30 10 = some S ∧
      S.top_referrers.length ≤ 10 ∧
      S.top_referrers.Pairwise (fun a b => b.count ≤ a.count) ∧
      ∀ r ∈ S.top_referrers,
        r.domain ∈ rawReferrers c3Store "blog" ∧
        r.count = occs (rawReferrers c3Store "blog") r.domain ∧
        r.percentage = pct S.total_clicks r.count :=
  C3_top_referrers_amended c3Store "blog" 30 10 c3Link (by decide)

end RustyShort
